import Mathlib

/-!
Verification of the ChainCommand coordination core: a shallow embedding of the
event bus, KPI engine, proactive monitor, purchase-order/approval (HITL) gate,
logistics order progression, and the orchestrator's demand-consumption step,
together with proofs of the specified properties.

Modelling conventions:
* Python floats are modelled as exact rationals (`ℚ`).
* `datetime` values are modelled as rationals measured in days, so a
  `timedelta.total_seconds() / 86400` in the source corresponds to a plain
  subtraction here.
* `round(x, n)` is modelled by `pyRound n x` (round-half-to-even on the scaled
  value, as Python does).
* Fields whose content no verified property depends on (uuid-based ids,
  wall-clock timestamps, human-readable description strings) are either kept
  abstract as parameters or omitted; each definition's doc comment notes this.
-/

namespace ChainCommand

/-- Round-half-to-even of a rational to an integer, as Python's `round` does. -/
def roundHalfEven (x : ℚ) : ℤ :=
  if x - ⌊x⌋ < 1 / 2 then ⌊x⌋
  else if 1 / 2 < x - ⌊x⌋ then ⌊x⌋ + 1
  else if ⌊x⌋ % 2 = 0 then ⌊x⌋ else ⌊x⌋ + 1

/-- Python's `round(x, nd)` on exact rationals. -/
def pyRound (nd : ℕ) (x : ℚ) : ℚ := (roundHalfEven (x * 10 ^ nd) : ℚ) / 10 ^ nd

/-- `data.schemas.OrderStatus`. -/
inductive OrderStatus where
  | pending
  | approved
  | shipped
  | delivered
  | cancelled
deriving DecidableEq, Repr

/-- `data.schemas.AlertSeverity`. -/
inductive AlertSeverity where
  | low
  | medium
  | high
  | critical
deriving DecidableEq, Repr

/-- `data.schemas.ApprovalStatus`. -/
inductive ApprovalStatus where
  | pending
  | approved
  | rejected
  | autoApproved
deriving DecidableEq, Repr

/-- `data.schemas.Product` (the fields the coordination core reads; the
uuid-default `product_id` is an explicit string, `name`/`category`/price and
demand-std fields are omitted as no verified property reads them). -/
structure Product where
  productId : String
  unitCost : ℚ
  currentStock : ℚ
  reorderPoint : ℚ
  safetyStock : ℚ
  dailyDemandAvg : ℚ
deriving DecidableEq, Repr

/-- `data.schemas.Supplier` (fields read by the core). -/
structure Supplier where
  supplierId : String
  leadTimeMean : ℚ
  defectRate : ℚ
  isActive : Bool
deriving DecidableEq, Repr

/-- `data.schemas.PurchaseOrder`; `created_at` and `expected_delivery` are
rationals in days (the uuid `po_id` is an explicit string). -/
structure PurchaseOrder where
  poId : String
  supplierId : String
  productId : String
  quantity : ℚ
  unitCost : ℚ
  totalCost : ℚ
  status : OrderStatus
  createdAt : ℚ
  expectedDelivery : Option ℚ
  approvalStatus : ApprovalStatus
  approvedBy : Option String
deriving DecidableEq, Repr

/-- `data.schemas.HumanApprovalRequest`; the free-text `description` and the
opaque `data` map are omitted (no verified property reads them). -/
structure HumanApprovalRequest where
  requestId : String
  requestType : String
  estimatedCost : ℚ
  riskLevel : AlertSeverity
  status : ApprovalStatus
  decidedAt : Option ℚ
  decidedBy : Option String
  reason : Option String
deriving DecidableEq, Repr

/-- `data.schemas.KPISnapshot`: the twelve numeric fields (the wall-clock
`timestamp` default is omitted). -/
structure KPISnapshot where
  otif : ℚ
  fillRate : ℚ
  mape : ℚ
  dsi : ℚ
  stockoutCount : ℕ
  totalInventoryValue : ℚ
  carryingCost : ℚ
  orderCycleTime : ℚ
  perfectOrderRate : ℚ
  inventoryTurnover : ℚ
  backorderRate : ℚ
  supplierDefectRate : ℚ
deriving DecidableEq, Repr

/-- The structured part of a `SupplyChainEvent.data` payload that the verified
properties read (violation metric/value/target, alert product fields). Unused
entries stay `none`. -/
structure EventData where
  metric : Option String := none
  value : Option ℚ := none
  target : Option ℚ := none
  productId : Option String := none
  currentStock : Option ℚ := none
  safetyStock : Option ℚ := none
  reorderPoint : Option ℚ := none
deriving DecidableEq, Repr

/-- `data.schemas.SupplyChainEvent` (uuid `event_id`, wall-clock `timestamp`,
free-text `description` and the `resolved` flag are omitted; the `data` map is
restricted to the structured payload above). -/
structure SupplyChainEvent where
  eventType : String
  severity : AlertSeverity
  sourceAgent : String
  data : EventData := {}
deriving DecidableEq, Repr

/-- `config.Settings`: the fields the coordination core reads. -/
structure Settings where
  otifTarget : ℚ
  fillRateTarget : ℚ
  mapeThreshold : ℚ
  dsiMax : ℚ
  dsiMin : ℚ
  stockoutTolerance : ℕ
  costEscalationThreshold : ℚ
  autoApproveBelow : ℚ
deriving DecidableEq, Repr

/-- The default values in `config.Settings`. -/
def defaultSettings : Settings :=
  { otifTarget := 95 / 100
    fillRateTarget := 97 / 100
    mapeThreshold := 15
    dsiMax := 60
    dsiMin := 10
    stockoutTolerance := 3
    costEscalationThreshold := 50000
    autoApproveBelow := 10000 }

/-- An `events.bus` subscriber: `run` is the handler coroutine, returning
`Except.error` when the handler raises. `hid` identifies the handler so that
dispatch results can name which handlers were invoked. -/
structure Handler where
  hid : ℕ
  run : SupplyChainEvent → Except String Unit

/-- `events.bus.EventBus` state: per-type subscribers (`defaultdict(list)`,
modelled as a total function returning `[]` for unknown types), wildcard
subscribers, and the append-only event log. The background queue
(`enqueue`/`start`/`stop`) is not modelled; it only forwards to `publish`. -/
structure EventBus where
  subscribers : String → List Handler
  allSubscribers : List Handler
  eventLog : List SupplyChainEvent

/-- Whether a handler completes without raising on an event. -/
def runOk (h : Handler) (e : SupplyChainEvent) : Bool :=
  match h.run e with
  | .ok _ => true
  | .error _ => false

/-- `EventBus._safe_dispatch`: run the handler under `try/except`; an exception
is logged and swallowed, so the dispatch itself never fails. The result records
the handler id and whether it completed without raising. -/
def safeDispatch (h : Handler) (e : SupplyChainEvent) : Except String (ℕ × Bool) :=
  match h.run e with
  | .ok _ => .ok (h.hid, true)
  | .error _ => .ok (h.hid, false)

/-- Sequencing of `asyncio.gather` over `_safe_dispatch` tasks: results are
collected in handler order, and a failure of any dispatch would abort the
whole gather (which is what `publish` protects against via `_safe_dispatch`). -/
def dispatchAll (handlers : List Handler) (e : SupplyChainEvent) :
    Except String (List (ℕ × Bool)) :=
  match handlers with
  | [] => .ok []
  | h :: rest => do
      let r ← safeDispatch h e
      let rs ← dispatchAll rest e
      pure (r :: rs)

/-- `EventBus.publish`: append the event to the log, then dispatch to the
type-matched subscribers followed by the wildcard subscribers. Returns the new
bus state plus the per-handler dispatch records; an `Except.error` result would
model `publish` itself raising. -/
def publish (bus : EventBus) (e : SupplyChainEvent) :
    Except String (EventBus × List (ℕ × Bool)) := do
  let results ← dispatchAll (bus.subscribers e.eventType ++ bus.allSubscribers) e
  pure ({ bus with eventLog := bus.eventLog ++ [e] }, results)

/-- `EventBus.recent_events`: `self._event_log[-100:]`, the last 100 logged
events. -/
def recentEvents (bus : EventBus) : List SupplyChainEvent :=
  bus.eventLog.drop (bus.eventLog.length - 100)

/-- Publish a sequence of events in order, keeping the bus state (the event
result lists are discarded; a raising `publish` would leave the bus as is). -/
def publishAll (bus : EventBus) (es : List SupplyChainEvent) : EventBus :=
  es.foldl
    (fun b e =>
      match publish b e with
      | .ok r => r.1
      | .error _ => b)
    bus

/-- Aggregate daily demand over the product list,
`sum(p.daily_demand_avg for p in products)` in `KPIEngine.calculate_snapshot`. -/
def totalDemandOf (products : List Product) : ℚ :=
  (products.map (fun p => p.dailyDemandAvg)).sum

/-- The MAPE carried over from the last snapshot in the engine history
(`self._history[-1].mape if self._history else 12.0`). -/
def lastMape (history : List KPISnapshot) : ℚ :=
  match history.getLast? with
  | some s => s.mape
  | none => 12

/-- `KPIEngine.calculate_snapshot` as a pure function of the engine history and
the product / purchase-order / supplier state. Datetimes are rationals in days,
so the source's `(expected_delivery - created_at).total_seconds() / 86400` is a
subtraction here. -/
def calculateSnapshot (history : List KPISnapshot) (products : List Product)
    (purchaseOrders : List PurchaseOrder) (suppliers : List Supplier) : KPISnapshot :=
  let delivered := purchaseOrders.filter (fun po => decide (po.status = OrderStatus.delivered))
  let onTimeInFull := (delivered.filter (fun po => po.expectedDelivery.isSome)).length
  let otif := (onTimeInFull : ℚ) / (max delivered.length 1 : ℕ)
  let totalDemand := totalDemandOf products
  let fulfilled := (products.map (fun p => min p.currentStock p.dailyDemandAvg)).sum
  let fillRate := fulfilled / max totalDemand 1
  let mape := lastMape history
  let totalStock := (products.map (fun p => p.currentStock)).sum
  let avgDaily := (products.map (fun p => p.dailyDemandAvg)).sum
  let dsi := totalStock / max avgDaily 1
  let stockoutCount := (products.filter (fun p => decide (p.currentStock ≤ 0))).length
  let totalValue := (products.map (fun p => p.currentStock * p.unitCost)).sum
  let carryingCost := totalValue * (25 / 100) / 365
  let cycleTimes := delivered.filterMap (fun po => po.expectedDelivery.map (fun ed => ed - po.createdAt))
  let orderCycleTime := if cycleTimes = [] then 7 else cycleTimes.sum / cycleTimes.length
  let totalOrders := (purchaseOrders.filter (fun po => decide (¬ po.status = OrderStatus.cancelled))).length
  let perfect := (delivered.filter (fun po => decide (0 < po.quantity))).length
  let perfectOrderRate := (perfect : ℚ) / (max totalOrders 1 : ℕ)
  let annualCogs := (products.map (fun p => p.dailyDemandAvg * p.unitCost * 365)).sum
  let inventoryTurnover := annualCogs / max totalValue 1
  let backordered := (products.filter (fun p => decide (p.currentStock ≤ 0 ∧ 0 < p.dailyDemandAvg))).length
  let backorderRate := (backordered : ℚ) / (max products.length 1 : ℕ)
  let activeSuppliers := suppliers.filter (fun s => s.isActive)
  let supplierDefectRate :=
    if activeSuppliers = [] then 2 / 100
    else ((activeSuppliers.map (fun s => s.defectRate)).sum) / activeSuppliers.length
  { otif := pyRound 4 otif
    fillRate := pyRound 4 fillRate
    mape := pyRound 2 mape
    dsi := pyRound 1 dsi
    stockoutCount := stockoutCount
    totalInventoryValue := pyRound 2 totalValue
    carryingCost := pyRound 2 carryingCost
    orderCycleTime := pyRound 1 orderCycleTime
    perfectOrderRate := pyRound 4 perfectOrderRate
    inventoryTurnover := pyRound 2 inventoryTurnover
    backorderRate := pyRound 4 backorderRate
    supplierDefectRate := pyRound 4 supplierDefectRate }

/-- One engine call `KPIEngine.calculate_snapshot`: the computed snapshot and
the updated engine history (`self._history.append(snapshot)`), its only
side effect. -/
def calcStep (history : List KPISnapshot) (products : List Product)
    (purchaseOrders : List PurchaseOrder) (suppliers : List Supplier) :
    KPISnapshot × List KPISnapshot :=
  let snap := calculateSnapshot history products purchaseOrders suppliers
  (snap, history ++ [snap])

/-- The fill-rate formula exactly as the specification states it.
Modelled from the spec: fill rate is the aggregate
`Σ min(stock, dailyDemand) / Σ dailyDemand`, with `1` used as the denominator
only when the aggregate demand is `0`. Kept separate from `calculateSnapshot`
(which embeds the source) so the two can be compared. -/
def specFillRate (products : List Product) : ℚ :=
  let d := totalDemandOf products
  let f := (products.map (fun p => min p.currentStock p.dailyDemandAvg)).sum
  f / (if d = 0 then 1 else d)

/-- A `kpi_threshold_violated` event as built in `KPIEngine.check_thresholds`
(the formatted description string is omitted). -/
def violationEvent (metric : String) (severity : AlertSeverity) (value target : ℚ) :
    SupplyChainEvent :=
  { eventType := "kpi_threshold_violated"
    severity := severity
    sourceAgent := "kpi_engine"
    data := { metric := some metric, value := some value, target := some target } }

/-- `KPIEngine.check_thresholds`: the six independent strict comparisons, each
appending one violation event. The source's sequential `events.append` calls
are the concatenation of the conditional singletons, in the same order. -/
def checkThresholds (s : Settings) (k : KPISnapshot) : List SupplyChainEvent :=
  (if k.otif < s.otifTarget then
    [violationEvent "otif" AlertSeverity.high k.otif s.otifTarget] else []) ++
  (if k.fillRate < s.fillRateTarget then
    [violationEvent "fill_rate" AlertSeverity.high k.fillRate s.fillRateTarget] else []) ++
  (if s.mapeThreshold < k.mape then
    [violationEvent "mape" AlertSeverity.medium k.mape s.mapeThreshold] else []) ++
  (if s.dsiMax < k.dsi then
    [violationEvent "dsi" AlertSeverity.medium k.dsi s.dsiMax] else []) ++
  (if k.dsi < s.dsiMin then
    [violationEvent "dsi" AlertSeverity.high k.dsi s.dsiMin] else []) ++
  (if s.stockoutTolerance < k.stockoutCount then
    [violationEvent "stockout_count" AlertSeverity.critical
      (k.stockoutCount : ℚ) (s.stockoutTolerance : ℚ)] else [])

/-- Number of violation events in a list that carry a given metric name. -/
def countMetric (events : List SupplyChainEvent) (m : String) : ℕ :=
  (events.filter (fun e => decide (e.data.metric = some m))).length

/-- The `stockout_alert` event of `ProactiveMonitor.tick` (critical). -/
def stockoutEvent (p : Product) : SupplyChainEvent :=
  { eventType := "stockout_alert"
    severity := AlertSeverity.critical
    sourceAgent := "monitor"
    data := { productId := some p.productId, currentStock := some p.currentStock } }

/-- The `low_stock_alert` event of `ProactiveMonitor.tick` (high). -/
def lowStockEvent (p : Product) : SupplyChainEvent :=
  { eventType := "low_stock_alert"
    severity := AlertSeverity.high
    sourceAgent := "monitor"
    data := { productId := some p.productId, currentStock := some p.currentStock,
              safetyStock := some p.safetyStock } }

/-- The `overstock_alert` event of `ProactiveMonitor.tick` (medium). -/
def overstockEvent (p : Product) : SupplyChainEvent :=
  { eventType := "overstock_alert"
    severity := AlertSeverity.medium
    sourceAgent := "monitor"
    data := { productId := some p.productId, currentStock := some p.currentStock,
              reorderPoint := some p.reorderPoint } }

/-- The per-product inventory check of `ProactiveMonitor.tick` step 1: the
`if stock <= 0 / elif stock < safety_stock / elif stock > reorder_point * 3`
chain, yielding at most one alert. -/
def inventoryAlert (p : Product) : Option SupplyChainEvent :=
  if p.currentStock ≤ 0 then some (stockoutEvent p)
  else if p.currentStock < p.safetyStock then some (lowStockEvent p)
  else if p.reorderPoint * 3 < p.currentStock then some (overstockEvent p)
  else none

/-- The inventory alerts one monitor tick publishes (step 1 of
`ProactiveMonitor.tick`), in product order. -/
def tickInventoryAlerts (products : List Product) : List SupplyChainEvent :=
  products.filterMap inventoryAlert

/-- The unit-cost resolution in `CreatePurchaseOrder.execute`: when the given
unit cost is `0.0`, look it up from the product; keep the argument otherwise
(also when the product is unknown). -/
def resolveUnitCost (products : List Product) (productId : String) (unitCost : ℚ) : ℚ :=
  if unitCost = 0 then
    match products.find? (fun p => decide (p.productId = productId)) with
    | some p => p.unitCost
    | none => unitCost
  else unitCost

/-- `action_tools._create_approval` result: a fresh request (uuid id abstracted
as a parameter), born with the default status `pending` and registered in the
pending-approvals map by the caller. -/
def mkApproval (requestId requestType : String) (estimatedCost : ℚ)
    (riskLevel : AlertSeverity) : HumanApprovalRequest :=
  { requestId := requestId
    requestType := requestType
    estimatedCost := estimatedCost
    riskLevel := riskLevel
    status := ApprovalStatus.pending
    decidedAt := none
    decidedBy := none
    reason := none }

/-- Result of `CreatePurchaseOrder.execute`: the created order and the approval
requests newly added to the runtime's pending-approvals map. -/
structure CreatePOResult where
  po : PurchaseOrder
  newApprovals : List HumanApprovalRequest
deriving DecidableEq, Repr

/-- Python `int()` truncation toward zero on a rational. -/
def pyTrunc (x : ℚ) : ℤ := if 0 ≤ x then ⌊x⌋ else -⌊-x⌋

/-- `CreatePurchaseOrder.execute`: validation, unit-cost resolution, supplier
lead-time lookup, and the HITL gate. `now` is the current time in days and
`poId`/`aprId` stand for the fresh uuid-based ids. An `Except.error` models the
`{"error": ...}` return (which leaves the runtime unmutated). -/
def createPurchaseOrder (s : Settings) (products : List Product)
    (suppliers : List Supplier) (supplierId productId : String)
    (quantity unitCost : ℚ) (now : ℚ) (poId : String := "PO-new")
    (aprId : String := "APR-new") : Except String CreatePOResult :=
  if quantity ≤ 0 then .error "quantity must be positive"
  else if unitCost < 0 then .error "unit_cost must be non-negative"
  else
    let uc := resolveUnitCost products productId unitCost
    let leadDays : ℚ :=
      match suppliers.find? (fun su => decide (su.supplierId = supplierId)) with
      | some su => su.leadTimeMean
      | none => 7
    let totalCost := quantity * uc
    let po : PurchaseOrder :=
      { poId := poId
        supplierId := supplierId
        productId := productId
        quantity := quantity
        unitCost := uc
        totalCost := totalCost
        status := OrderStatus.pending
        createdAt := now
        expectedDelivery := some (now + (pyTrunc leadDays : ℚ))
        approvalStatus := ApprovalStatus.pending
        approvedBy := none }
    if totalCost < s.autoApproveBelow then
      .ok { po := { po with approvalStatus := ApprovalStatus.autoApproved,
                            status := OrderStatus.approved,
                            approvedBy := some "system" }
            newApprovals := [] }
    else if s.costEscalationThreshold ≤ totalCost then
      .ok { po := po
            newApprovals := [mkApproval aprId "purchase_order" totalCost AlertSeverity.high] }
    else
      .ok { po := po
            newApprovals := [mkApproval aprId "purchase_order" totalCost AlertSeverity.medium] }

/-- Add a delivered order's quantity to the first product with the matching id
(`next(p for p in products if p.product_id == po.product_id)` followed by
`product.current_stock += po.quantity`; nothing happens when no product
matches). -/
def creditProduct (products : List Product) (pid : String) (qty : ℚ) : List Product :=
  match products with
  | [] => []
  | p :: rest =>
      if p.productId = pid then { p with currentStock := p.currentStock + qty } :: rest
      else p :: creditProduct rest pid qty

/-- Total stock held by the products with a given id. -/
def stockOf (products : List Product) (pid : String) : ℚ :=
  ((products.filter (fun p => decide (p.productId = pid))).map (fun p => p.currentStock)).sum

/-- The order-progression step of `LogisticsCoordinatorAgent.run_cycle` for one
order: `approved → shipped`; `shipped → delivered` once
`expected_delivery <= now`, crediting the product's stock. Orders outside the
active statuses (and shipped orders not yet due) are untouched. The delay
alerts emitted alongside are not modelled (no verified property reads them). -/
def progressOrder (now : ℚ) (po : PurchaseOrder) (products : List Product) :
    PurchaseOrder × List Product :=
  if po.status = OrderStatus.approved then
    ({ po with status := OrderStatus.shipped }, products)
  else if po.status = OrderStatus.shipped then
    match po.expectedDelivery with
    | some ed =>
        if ed ≤ now then
          ({ po with status := OrderStatus.delivered },
           creditProduct products po.productId po.quantity)
        else (po, products)
    | none => (po, products)
  else (po, products)

/-- The whole order-progression pass of `LogisticsCoordinatorAgent.run_cycle`:
orders are visited in list order, threading the product state. -/
def logisticsRunCycle (now : ℚ) (orders : List PurchaseOrder)
    (products : List Product) : List PurchaseOrder × List Product :=
  match orders with
  | [] => ([], products)
  | po :: rest =>
      let r := progressOrder now po products
      let rr := logisticsRunCycle now rest r.2
      (r.1 :: rr.1, rr.2)

/-- `api.routes.dashboard.decide_approval`: look up the request in the
pending-approvals map (an association list keyed by request id), and — with no
guard on its current status — set it to `approved`/`rejected`, stamping the
decision metadata. `Except.error` models the `{"error": ...}` return for an
unknown id. -/
def decideApproval (pendingApprovals : List (String × HumanApprovalRequest))
    (requestId : String) (approved : Bool) (now : ℚ) (reason : String) :
    Except String (List (String × HumanApprovalRequest)) :=
  match pendingApprovals.find? (fun kv => decide (kv.1 = requestId)) with
  | none => .error "approval request not found"
  | some _ =>
      .ok (pendingApprovals.map (fun kv =>
        if kv.1 = requestId then
          (kv.1, { kv.2 with
                    status := if approved then ApprovalStatus.approved
                              else ApprovalStatus.rejected
                    decidedAt := some now
                    decidedBy := some "human"
                    reason := some reason })
        else kv))

/-- The status of the request with the given id, if present. -/
def approvalStatusOf (pendingApprovals : List (String × HumanApprovalRequest))
    (requestId : String) : Option ApprovalStatus :=
  (pendingApprovals.find? (fun kv => decide (kv.1 = requestId))).map (fun kv => kv.2.status)

/-- The per-product demand-consumption update at the end of
`ChainCommandOrchestrator.run_cycle`: `consumed = max(0, random.gauss(...))`
followed by `p.current_stock = max(0, p.current_stock - consumed)`. The random
draw is the explicit argument `g`. -/
def consumeOne (g : ℚ) (p : Product) : Product :=
  { p with currentStock := max 0 (p.currentStock - max 0 g) }

/-- The demand-consumption loop over all products, one random draw per
product. -/
def consumeDemand (draws : List ℚ) (products : List Product) : List Product :=
  List.zipWith consumeOne draws products

/-- Scenario product with stock 100 and daily demand 20 (spec §8). -/
def exProductA : Product :=
  { productId := "PRD-A", unitCost := 1, currentStock := 100, reorderPoint := 0,
    safetyStock := 0, dailyDemandAvg := 20 }

/-- Scenario product with stock 0 and daily demand 10 (spec §8). -/
def exProductB : Product :=
  { productId := "PRD-B", unitCost := 1, currentStock := 0, reorderPoint := 0,
    safetyStock := 0, dailyDemandAvg := 10 }

/-- A product with aggregate demand strictly between 0 and 1, where
`max(total_demand, 1)` and the spec's fill-rate denominator disagree. -/
def exProductHalfDemand : Product :=
  { productId := "PRD-C", unitCost := 1, currentStock := 1, reorderPoint := 0,
    safetyStock := 0, dailyDemandAvg := 1 / 2 }

/-- Scenario product with zero stock, safety stock 50, reorder point 100
(spec §8 stockout scenario). -/
def exProductStockout : Product :=
  { productId := "PRD-S", unitCost := 2, currentStock := 0, reorderPoint := 100,
    safetyStock := 50, dailyDemandAvg := 5 }

/-- A KPI snapshot sitting exactly at every default threshold. -/
def atTargetSnapshot : KPISnapshot :=
  { otif := 95 / 100, fillRate := 97 / 100, mape := 15, dsi := 30, stockoutCount := 3,
    totalInventoryValue := 0, carryingCost := 0, orderCycleTime := 7,
    perfectOrderRate := 1, inventoryTurnover := 1, backorderRate := 0,
    supplierDefectRate := 2 / 100 }

/-- A pending high-risk approval request, as the HITL gate creates them. -/
def exApproval : HumanApprovalRequest :=
  mkApproval "APR-1" "purchase_order" 100000 AlertSeverity.high

/-- A shipped purchase order due at day 1. -/
def exShippedOrder : PurchaseOrder :=
  { poId := "PO-1", supplierId := "SUP-1", productId := "PRD-A", quantity := 40,
    unitCost := 10, totalCost := 400, status := OrderStatus.shipped, createdAt := 0,
    expectedDelivery := some 1, approvalStatus := ApprovalStatus.autoApproved,
    approvedBy := some "system" }

theorem roundHalfEven_intCast (z : ℤ) : roundHalfEven (z : ℚ) = z := by
  simp [roundHalfEven, Int.floor_intCast]

theorem pyRound_idem (nd : ℕ) (x : ℚ) : pyRound nd (pyRound nd x) = pyRound nd x := by
  unfold pyRound
  have h10 : ((10 : ℚ)) ^ nd ≠ 0 := by positivity
  rw [div_mul_cancel₀ _ h10, roundHalfEven_intCast]

theorem dispatchAll_ok (e : SupplyChainEvent) (l : List Handler) :
    dispatchAll l e = Except.ok (l.map (fun h => (h.hid, runOk h e))) := by
  induction l with
  | nil => rfl
  | cons h rest ih =>
      cases hr : h.run e <;>
        simp [dispatchAll, safeDispatch, runOk, hr, ih, Except.bind, bind, pure, Except.pure]

theorem publish_spec (bus : EventBus) (e : SupplyChainEvent) :
    publish bus e =
      Except.ok ({ bus with eventLog := bus.eventLog ++ [e] },
        (bus.subscribers e.eventType ++ bus.allSubscribers).map
          (fun h => (h.hid, runOk h e))) := by
  simp [publish, dispatchAll_ok, Except.bind, bind, pure, Except.pure]

theorem publishAll_log (es : List SupplyChainEvent) (bus : EventBus) :
    publishAll bus es = { bus with eventLog := bus.eventLog ++ es } := by
  induction es generalizing bus with
  | nil => simp [publishAll]
  | cons e rest ih =>
      have hstep : publishAll bus (e :: rest) =
          publishAll { bus with eventLog := bus.eventLog ++ [e] } rest := by
        simp [publishAll, publish_spec]
      rw [hstep, ih]
      simp

/-- C3: `EventBus.publish` invokes all type-matched handlers plus all wildcard
handlers, each exactly once and in subscription order; each handler's outcome
is recorded independently of every other handler's failure, and `publish`
itself always returns normally (`Except.ok`), however many handlers raise. -/
theorem publish_isolates_handler_errors (bus : EventBus) (e : SupplyChainEvent) :
    publish bus e =
      Except.ok ({ bus with eventLog := bus.eventLog ++ [e] },
        (bus.subscribers e.eventType ++ bus.allSubscribers).map
          (fun h => (h.hid, runOk h e))) :=
  publish_spec bus e

/-- C9: publishing a sequence of events appends each to the event log in
publish order without removing, reordering, or mutating previously logged
events (the old log stays a prefix), and the `recent_events` query view is
exactly the last 100 logged events, hence holds at most 100 events. -/
theorem event_log_last_hundred (bus : EventBus) (es : List SupplyChainEvent) :
    (publishAll bus es).eventLog = bus.eventLog ++ es ∧
    List.IsPrefix bus.eventLog (publishAll bus es).eventLog ∧
    recentEvents (publishAll bus es) =
      (bus.eventLog ++ es).drop ((bus.eventLog ++ es).length - 100) ∧
    (recentEvents (publishAll bus es)).length ≤ 100 := by
  have h := publishAll_log es bus
  refine ⟨by rw [h], ⟨es, by rw [h]⟩, by rw [h, recentEvents], ?_⟩
  rw [h, recentEvents]
  simp only [List.length_drop]
  omega

theorem countMetric_append (a b : List SupplyChainEvent) (m : String) :
    countMetric (a ++ b) m = countMetric a m + countMetric b m := by
  simp [countMetric, List.filter_append]

theorem countMetric_if (c : Prop) [Decidable c] (m m' : String) (sev : AlertSeverity)
    (v t : ℚ) :
    countMetric (if c then [violationEvent m sev v t] else []) m' =
      if c ∧ m = m' then 1 else 0 := by
  by_cases hc : c <;> by_cases hm : m = m' <;> simp [countMetric, violationEvent, hc, hm]

/-- C4: `check_thresholds` yields exactly one violation event per breached
metric — OTIF below target, fill rate below target, MAPE above threshold, DSI
above max, DSI below min, stockout count above tolerance — with each
comparison strict, so a metric exactly at its target yields no violation, and
the result is empty when every metric satisfies its target. -/
theorem check_thresholds_one_violation_per_breach (s : Settings) (k : KPISnapshot) :
    (checkThresholds s k).length =
        ((if k.otif < s.otifTarget then 1 else 0) +
         (if k.fillRate < s.fillRateTarget then 1 else 0) +
         (if s.mapeThreshold < k.mape then 1 else 0) +
         (if s.dsiMax < k.dsi then 1 else 0) +
         (if k.dsi < s.dsiMin then 1 else 0) +
         (if s.stockoutTolerance < k.stockoutCount then 1 else 0)) ∧
    countMetric (checkThresholds s k) "otif" = (if k.otif < s.otifTarget then 1 else 0) ∧
    countMetric (checkThresholds s k) "fill_rate" =
      (if k.fillRate < s.fillRateTarget then 1 else 0) ∧
    countMetric (checkThresholds s k) "mape" = (if s.mapeThreshold < k.mape then 1 else 0) ∧
    countMetric (checkThresholds s k) "dsi" =
      ((if s.dsiMax < k.dsi then 1 else 0) + (if k.dsi < s.dsiMin then 1 else 0)) ∧
    countMetric (checkThresholds s k) "stockout_count" =
      (if s.stockoutTolerance < k.stockoutCount then 1 else 0) ∧
    (k.otif = s.otifTarget → countMetric (checkThresholds s k) "otif" = 0) ∧
    (k.fillRate = s.fillRateTarget → countMetric (checkThresholds s k) "fill_rate" = 0) ∧
    (k.mape = s.mapeThreshold → countMetric (checkThresholds s k) "mape" = 0) ∧
    (k.stockoutCount = s.stockoutTolerance →
      countMetric (checkThresholds s k) "stockout_count" = 0) ∧
    (¬ k.otif < s.otifTarget → ¬ k.fillRate < s.fillRateTarget →
     ¬ s.mapeThreshold < k.mape → ¬ s.dsiMax < k.dsi → ¬ k.dsi < s.dsiMin →
     ¬ s.stockoutTolerance < k.stockoutCount → checkThresholds s k = []) := by
  have hlen : (checkThresholds s k).length =
      ((if k.otif < s.otifTarget then 1 else 0) +
       (if k.fillRate < s.fillRateTarget then 1 else 0) +
       (if s.mapeThreshold < k.mape then 1 else 0) +
       (if s.dsiMax < k.dsi then 1 else 0) +
       (if k.dsi < s.dsiMin then 1 else 0) +
       (if s.stockoutTolerance < k.stockoutCount then 1 else 0)) := by
    simp only [checkThresholds, List.length_append, apply_ite List.length,
      List.length_singleton, List.length_nil, Nat.add_assoc]
  refine ⟨hlen, ?_, ?_, ?_, ?_, ?_, ?_, ?_, ?_, ?_, ?_⟩ <;>
    simp only [checkThresholds, countMetric_append, countMetric_if] <;>
    try simp
  · intro h1
    simp [h1, lt_irrefl]
  · intro h1
    simp [h1, lt_irrefl]
  · intro h1
    simp [h1, lt_irrefl]
  · intro h1
    simp [h1, lt_irrefl]
  · intro h1 h2 h3 h4 h5 h6
    simp [h1, h2, h3, h4, h5, h6]

/-- Witness for C4: a snapshot sitting exactly at every default threshold
breaches nothing — the comparisons are strict — so no violation is produced. -/
theorem check_thresholds_at_target_witness :
    checkThresholds defaultSettings atTargetSnapshot = [] := by
  refine
    (check_thresholds_one_violation_per_breach defaultSettings
        atTargetSnapshot).2.2.2.2.2.2.2.2.2.2 ?_ ?_ ?_ ?_ ?_ ?_ <;>
    norm_num [defaultSettings, atTargetSnapshot]

/-- C5: on a monitor tick the three inventory alert tiers are mutually
exclusive per product: stock ≤ 0 yields exactly the critical `stockout_alert`;
otherwise stock < safetyStock yields exactly the high `low_stock_alert`;
otherwise stock > 3×reorderPoint yields exactly the medium `overstock_alert`;
otherwise no inventory alert — in particular, a product with stock = 0 gets
exactly one `stockout_alert` and no `low_stock_alert` in the same tick, and a
tick emits at most one inventory alert per listed product. -/
theorem monitor_tick_alert_tiers :
    (∀ p : Product,
      (p.currentStock ≤ 0 → inventoryAlert p = some (stockoutEvent p)) ∧
      (0 < p.currentStock → p.currentStock < p.safetyStock →
        inventoryAlert p = some (lowStockEvent p)) ∧
      (0 < p.currentStock → p.safetyStock ≤ p.currentStock →
        p.reorderPoint * 3 < p.currentStock → inventoryAlert p = some (overstockEvent p)) ∧
      (0 < p.currentStock → p.safetyStock ≤ p.currentStock →
        p.currentStock ≤ p.reorderPoint * 3 → inventoryAlert p = none) ∧
      (stockoutEvent p).severity = AlertSeverity.critical ∧
      (lowStockEvent p).severity = AlertSeverity.high ∧
      (overstockEvent p).severity = AlertSeverity.medium ∧
      (p.currentStock = 0 →
        ((tickInventoryAlerts [p]).filter
          (fun e => decide (e.eventType = "stockout_alert"))).length = 1 ∧
        ((tickInventoryAlerts [p]).filter
          (fun e => decide (e.eventType = "low_stock_alert"))).length = 0)) ∧
    (∀ products : List Product, (tickInventoryAlerts products).length ≤ products.length) := by
  constructor
  · intro p
    refine ⟨?_, ?_, ?_, ?_, rfl, rfl, rfl, ?_⟩
    · intro h
      simp [inventoryAlert, h]
    · intro h1 h2
      rw [inventoryAlert, if_neg (by linarith), if_pos h2]
    · intro h1 h2 h3
      rw [inventoryAlert, if_neg (by linarith), if_neg (by linarith), if_pos h3]
    · intro h1 h2 h3
      rw [inventoryAlert, if_neg (by linarith), if_neg (by linarith), if_neg (by linarith)]
    · intro h0
      have ha : inventoryAlert p = some (stockoutEvent p) := by
        simp [inventoryAlert, le_of_eq h0]
      simp [tickInventoryAlerts, ha, stockoutEvent]
  · intro products
    exact List.length_filterMap_le inventoryAlert products

/-- Witness for C5: the spec §8 scenario product (stock 0, safety stock 50,
reorder point 100) gets exactly one critical `stockout_alert`, carrying its
current stock, and no `low_stock_alert`. -/
theorem monitor_tick_alert_tiers_witness :
    inventoryAlert exProductStockout = some (stockoutEvent exProductStockout) ∧
    (stockoutEvent exProductStockout).severity = AlertSeverity.critical ∧
    (stockoutEvent exProductStockout).data.currentStock = some 0 ∧
    ((tickInventoryAlerts [exProductStockout]).filter
      (fun e => decide (e.eventType = "stockout_alert"))).length = 1 ∧
    ((tickInventoryAlerts [exProductStockout]).filter
      (fun e => decide (e.eventType = "low_stock_alert"))).length = 0 := by
  obtain ⟨h1, _, _, _, h5, _, _, h8⟩ := monitor_tick_alert_tiers.1 exProductStockout
  obtain ⟨h9, h10⟩ := h8 (by norm_num [exProductStockout])
  exact ⟨h1 (by norm_num [exProductStockout]), h5, by rfl, h9, h10⟩

/-- C1: for any purchase-order creation with positive quantity and a
non-negative unit cost (resolved from the product when given as 0), the call
succeeds, the order's total cost is quantity × resolved unit cost, and the
HITL gate applies: below `autoApproveBelow` the order is born auto-approved
with status `approved` and no approval request; at or above
`costEscalationThreshold` it is born pending with exactly one new pending
high-risk `ApprovalRequest`; in the middle band it is born pending with
exactly one new pending medium-risk request. Stated for any settings with
`autoApproveBelow ≤ costEscalationThreshold` (the defaults are 10000 and
50000). -/
theorem create_purchase_order_hitl_gate (s : Settings) (products : List Product)
    (suppliers : List Supplier) (sid pid poId aprId : String)
    (quantity unitCost now : ℚ) (hq : 0 < quantity) (hc : 0 ≤ unitCost)
    (hs : s.autoApproveBelow ≤ s.costEscalationThreshold) :
    ∃ r : CreatePOResult,
      createPurchaseOrder s products suppliers sid pid quantity unitCost now poId aprId =
        Except.ok r ∧
      r.po.totalCost = quantity * resolveUnitCost products pid unitCost ∧
      (r.po.totalCost < s.autoApproveBelow →
        r.po.approvalStatus = ApprovalStatus.autoApproved ∧
        r.po.status = OrderStatus.approved ∧ r.newApprovals = []) ∧
      (s.costEscalationThreshold ≤ r.po.totalCost →
        r.po.approvalStatus = ApprovalStatus.pending ∧ r.po.status = OrderStatus.pending ∧
        ∃ a, r.newApprovals = [a] ∧ a.riskLevel = AlertSeverity.high ∧
          a.status = ApprovalStatus.pending ∧ a.estimatedCost = r.po.totalCost ∧
          a.requestType = "purchase_order") ∧
      (s.autoApproveBelow ≤ r.po.totalCost → r.po.totalCost < s.costEscalationThreshold →
        r.po.approvalStatus = ApprovalStatus.pending ∧ r.po.status = OrderStatus.pending ∧
        ∃ a, r.newApprovals = [a] ∧ a.riskLevel = AlertSeverity.medium ∧
          a.status = ApprovalStatus.pending ∧ a.estimatedCost = r.po.totalCost ∧
          a.requestType = "purchase_order") := by
  have hq2 : ¬ quantity ≤ 0 := not_le.mpr hq
  have hc2 : ¬ unitCost < 0 := not_lt.mpr hc
  unfold createPurchaseOrder
  rw [if_neg hq2, if_neg hc2]
  dsimp only
  by_cases h1 : quantity * resolveUnitCost products pid unitCost < s.autoApproveBelow
  · rw [if_pos h1]
    refine ⟨_, rfl, rfl, fun _ => ⟨rfl, rfl, rfl⟩, fun h2 => absurd h2 (by simp; linarith),
      fun h2 _ => absurd h2 (by simp [h1])⟩
  · rw [if_neg h1]
    by_cases h2 : s.costEscalationThreshold ≤ quantity * resolveUnitCost products pid unitCost
    · rw [if_pos h2]
      exact ⟨_, rfl, rfl, fun h3 => absurd h3 h1,
        fun _ => ⟨rfl, rfl, _, rfl, rfl, rfl, rfl, rfl⟩,
        fun _ h3 => absurd h3 (not_lt.mpr h2)⟩
    · rw [if_neg h2]
      exact ⟨_, rfl, rfl, fun h3 => absurd h3 h1, fun h3 => absurd h3 h2,
        fun _ _ => ⟨rfl, rfl, _, rfl, rfl, rfl, rfl, rfl⟩⟩

/-- Witness for C1: with the default settings, ordering 10000 units at unit
cost 10 gives total cost 100000 ≥ 50000, so the order is born pending with one
new pending high-risk approval request (the spec §8 escalation scenario). -/
theorem create_purchase_order_hitl_gate_witness :
    ∃ r : CreatePOResult,
      createPurchaseOrder defaultSettings [] [] "SUP-1" "PRD-1" 10000 10 0
          "PO-new" "APR-new" = Except.ok r ∧
      r.po.totalCost = 100000 ∧
      r.po.approvalStatus = ApprovalStatus.pending ∧
      ∃ a, r.newApprovals = [a] ∧ a.riskLevel = AlertSeverity.high ∧
        a.status = ApprovalStatus.pending := by
  obtain ⟨r, hr, htot, _, hhigh, _⟩ :=
    create_purchase_order_hitl_gate defaultSettings [] [] "SUP-1" "PRD-1" "PO-new"
      "APR-new" 10000 10 0 (by norm_num) (by norm_num) (by norm_num [defaultSettings])
  have htot2 : r.po.totalCost = 100000 := by
    rw [htot]
    norm_num [resolveUnitCost]
  obtain ⟨hap, _, a, ha, harisk, hastat, _⟩ :=
    hhigh (by rw [htot2]; norm_num [defaultSettings])
  exact ⟨r, hr, htot2, hap, a, ha, harisk, hastat⟩

theorem stockOf_creditProduct (products : List Product) (pid : String) (qty : ℚ)
    (h : ∃ p ∈ products, p.productId = pid) :
    stockOf (creditProduct products pid qty) pid = stockOf products pid + qty := by
  induction products with
  | nil => simp at h
  | cons p rest ih =>
      by_cases hp : p.productId = pid
      · simp [creditProduct, hp, stockOf, List.filter_cons]
        ring
      · obtain ⟨q, hq, hq2⟩ := h
        rcases List.mem_cons.mp hq with hq | hq
        · exact absurd (hq ▸ hq2) hp
        · have := ih ⟨q, hq, hq2⟩
          simp only [creditProduct, if_neg hp, stockOf, List.filter_cons] at this ⊢
          simp [hp, this]

theorem logisticsRunCycle_all_delivered (now : ℚ) (orders : List PurchaseOrder)
    (products : List Product)
    (h : ∀ po ∈ orders, po.status = OrderStatus.delivered) :
    logisticsRunCycle now orders products = (orders, products) := by
  induction orders generalizing products with
  | nil => rfl
  | cons po rest ih =>
      have hpo : po.status = OrderStatus.delivered := h po (List.mem_cons_self po rest)
      have hstep : progressOrder now po products = (po, products) := by
        rw [progressOrder, if_neg (by simp [hpo]), if_neg (by simp [hpo])]
      have hrest := ih products (fun q hq => h q (List.mem_cons_of_mem po hq))
      simp [logisticsRunCycle, hstep, hrest]

/-- C2: in the logistics cycle a `shipped` order becomes `delivered` only when
the current time has reached its expected delivery; on that transition the
target product's stock is credited by exactly the order quantity; and an
already-`delivered` order is left untouched by the cycle (it credits no stock
again), so the credit fires at most once per order. -/
theorem logistics_delivery_credits_once (now : ℚ) (po : PurchaseOrder)
    (products : List Product) :
    (po.status = OrderStatus.shipped →
      (progressOrder now po products).1.status = OrderStatus.delivered →
      ∃ ed, po.expectedDelivery = some ed ∧ ed ≤ now) ∧
    (∀ ed : ℚ, po.status = OrderStatus.shipped → po.expectedDelivery = some ed →
      ed ≤ now →
      progressOrder now po products =
        ({ po with status := OrderStatus.delivered },
         creditProduct products po.productId po.quantity) ∧
      ((∃ p ∈ products, p.productId = po.productId) →
        stockOf (progressOrder now po products).2 po.productId =
          stockOf products po.productId + po.quantity)) ∧
    (po.status = OrderStatus.delivered → progressOrder now po products = (po, products)) ∧
    (∀ orders : List PurchaseOrder,
      (∀ po2 ∈ orders, po2.status = OrderStatus.delivered) →
      logisticsRunCycle now orders products = (orders, products)) := by
  refine ⟨?_, ?_, ?_, fun orders h => logisticsRunCycle_all_delivered now orders products h⟩
  · intro hs hd
    rcases hed : po.expectedDelivery with _ | ed
    · rw [progressOrder, if_neg (by simp [hs]), if_pos hs, hed] at hd
      simp [hs] at hd
    · by_cases hle : ed ≤ now
      · exact ⟨ed, rfl, hle⟩
      · rw [progressOrder, if_neg (by simp [hs]), if_pos hs, hed] at hd
        simp [hle, hs] at hd
  · intro ed hs hed hle
    have hprog : progressOrder now po products =
        ({ po with status := OrderStatus.delivered },
         creditProduct products po.productId po.quantity) := by
      rw [progressOrder, if_neg (by simp [hs]), if_pos hs, hed]
      simp [hle]
    refine ⟨hprog, fun hex => ?_⟩
    rw [hprog]
    exact stockOf_creditProduct products po.productId po.quantity hex
  · intro hd
    rw [progressOrder, if_neg (by simp [hd]), if_neg (by simp [hd])]

/-- Witness for C2: at day 2 a shipped order due at day 1 is delivered and the
matching product's stock rises by exactly the order quantity (100 + 40), and a
cycle over the already-delivered order changes nothing. -/
theorem logistics_delivery_credits_once_witness :
    progressOrder 2 exShippedOrder [exProductA] =
      ({ exShippedOrder with status := OrderStatus.delivered },
       creditProduct [exProductA] "PRD-A" 40) ∧
    stockOf (progressOrder 2 exShippedOrder [exProductA]).2 "PRD-A" = 100 + 40 ∧
    logisticsRunCycle 2 [{ exShippedOrder with status := OrderStatus.delivered }]
      [exProductA] =
      ([{ exShippedOrder with status := OrderStatus.delivered }], [exProductA]) := by
  obtain ⟨_, h2, _, h4⟩ := logistics_delivery_credits_once 2 exShippedOrder [exProductA]
  obtain ⟨hprog, hstock⟩ := h2 1 rfl rfl (by norm_num)
  refine ⟨hprog, ?_, h4 _ (by simp)⟩
  have hbase : stockOf [exProductA] "PRD-A" = 100 := by
    norm_num [stockOf, exProductA, List.filter_cons]
  have h := hstock ⟨exProductA, by simp, rfl⟩
  simpa [exShippedOrder, hbase] using h

theorem lastMape_concat (history : List KPISnapshot) (s : KPISnapshot) :
    lastMape (history ++ [s]) = s.mape := by
  simp [lastMape]

theorem calculateSnapshot_mape (history : List KPISnapshot) (ps : List Product)
    (os : List PurchaseOrder) (ss : List Supplier) :
    (calculateSnapshot history ps os ss).mape = pyRound 2 (lastMape history) := rfl

theorem calculateSnapshot_history_congr (h1 h2 : List KPISnapshot) (ps : List Product)
    (os : List PurchaseOrder) (ss : List Supplier)
    (hm : pyRound 2 (lastMape h1) = pyRound 2 (lastMape h2)) :
    calculateSnapshot h1 ps os ss = calculateSnapshot h2 ps os ss := by
  unfold calculateSnapshot
  dsimp only
  rw [hm]

/-- C6: `calculate_snapshot` is deterministic and its only side effect is
appending the snapshot to the engine history: a second call on the updated
engine state with identical product, purchase-order, and supplier inputs
returns an identical snapshot, and each call extends the history by exactly
its own snapshot, leaving earlier entries untouched. -/
theorem calculate_snapshot_deterministic (hist : List KPISnapshot) (ps : List Product)
    (os : List PurchaseOrder) (ss : List Supplier) :
    (calcStep hist ps os ss).2 = hist ++ [(calcStep hist ps os ss).1] ∧
    (calcStep ((calcStep hist ps os ss).2) ps os ss).1 = (calcStep hist ps os ss).1 ∧
    (calcStep ((calcStep hist ps os ss).2) ps os ss).2 =
      (calcStep hist ps os ss).2 ++ [(calcStep hist ps os ss).1] := by
  have hsame : (calcStep ((calcStep hist ps os ss).2) ps os ss).1 =
      (calcStep hist ps os ss).1 := by
    show calculateSnapshot (hist ++ [calculateSnapshot hist ps os ss]) ps os ss =
      calculateSnapshot hist ps os ss
    apply calculateSnapshot_history_congr
    rw [lastMape_concat, calculateSnapshot_mape, pyRound_idem]
  refine ⟨rfl, hsame, ?_⟩
  show (calcStep hist ps os ss).2 ++
      [calculateSnapshot ((calcStep hist ps os ss).2) ps os ss] =
    (calcStep hist ps os ss).2 ++ [(calcStep hist ps os ss).1]
  rw [show calculateSnapshot ((calcStep hist ps os ss).2) ps os ss =
      (calcStep ((calcStep hist ps os ss).2) ps os ss).1 from rfl, hsame]

/-- Counterexample to C7 as stated: deciding the same request twice changes its
terminal state twice. Starting from a pending request, the first decide call
(approve) sets it `approved`; a second decide call (reject) on the
already-decided request succeeds and overwrites the state to `rejected` — the
endpoint has no terminal-state guard. -/
theorem decide_approval_second_decision_counterexample :
    approvalStatusOf [("APR-1", exApproval)] "APR-1" = some ApprovalStatus.pending ∧
    ∃ m1, decideApproval [("APR-1", exApproval)] "APR-1" true 0 "ok" = Except.ok m1 ∧
      approvalStatusOf m1 "APR-1" = some ApprovalStatus.approved ∧
      ∃ m2, decideApproval m1 "APR-1" false 1 "no" = Except.ok m2 ∧
        approvalStatusOf m2 "APR-1" = some ApprovalStatus.rejected := by
  exact ⟨rfl, _, rfl, rfl, _, rfl, rfl⟩

/-- C7 (amended): every approval request created by the tools is born
`pending`; the external decision endpoint, on any request present in the
pending-approvals map, unconditionally sets its status to `approved` or
`rejected` and stamps the decision metadata, with no guard on a prior
decision — so a repeated decide call overwrites the earlier terminal state
(auto-approved purchase orders never create a request at all). -/
theorem decide_approval_unconditional (pend : List (String × HumanApprovalRequest))
    (rid : String) (approved : Bool) (now : ℚ) (reason : String)
    (h : ∃ kv ∈ pend, kv.1 = rid) :
    (∀ reqId reqType cost risk,
      (mkApproval reqId reqType cost risk).status = ApprovalStatus.pending) ∧
    ∃ pend2, decideApproval pend rid approved now reason = Except.ok pend2 ∧
      approvalStatusOf pend2 rid =
        some (if approved then ApprovalStatus.approved else ApprovalStatus.rejected) ∧
      pend2.map Prod.fst = pend.map Prod.fst ∧
      (∀ kv ∈ pend2, kv.1 = rid →
        kv.2.decidedBy = some "human" ∧ kv.2.decidedAt = some now ∧
        kv.2.reason = some reason) := by
  obtain ⟨kv0, hmem, hid⟩ := h
  have hf : (pend.find? (fun kv => decide (kv.1 = rid))).isSome :=
    List.find?_isSome.mpr ⟨kv0, hmem, by simp [hid]⟩
  rcases hfind : pend.find? (fun kv => decide (kv.1 = rid)) with _ | kv1
  · rw [hfind] at hf
    simp at hf
  · have hok : decideApproval pend rid approved now reason =
        Except.ok (pend.map (fun kv =>
          if kv.1 = rid then
            (kv.1, { kv.2 with
                      status := if approved then ApprovalStatus.approved
                                else ApprovalStatus.rejected
                      decidedAt := some now
                      decidedBy := some "human"
                      reason := some reason })
          else kv)) := by
      unfold decideApproval
      rw [hfind]
    have hkv1 : kv1.1 = rid := by
      have := List.find?_some hfind
      simpa using this
    refine ⟨fun _ _ _ _ => rfl, _, hok, ?_, ?_, ?_⟩
    · unfold approvalStatusOf
      rw [List.find?_map]
      have hcomp : ((fun kv : String × HumanApprovalRequest => decide (kv.1 = rid)) ∘
          (fun kv : String × HumanApprovalRequest =>
            if kv.1 = rid then
              (kv.1, { kv.2 with
                        status := if approved then ApprovalStatus.approved
                                  else ApprovalStatus.rejected
                        decidedAt := some now
                        decidedBy := some "human"
                        reason := some reason })
            else kv)) =
          (fun kv : String × HumanApprovalRequest => decide (kv.1 = rid)) := by
        funext kv
        by_cases hk : kv.1 = rid <;> simp [hk]
      rw [hcomp, hfind]
      simp [hkv1]
    · rw [List.map_map]
      congr 1
      funext kv
      by_cases hk : kv.1 = rid <;> simp [hk]
    · intro kv hmem2 hkid
      obtain ⟨kv3, _, hkv3⟩ := List.mem_map.mp hmem2
      by_cases hk : kv3.1 = rid
      · rw [if_pos hk] at hkv3
        rw [← hkv3]
        exact ⟨rfl, rfl, rfl⟩
      · rw [if_neg hk] at hkv3
        exact absurd (hkv3 ▸ hkid) hk

/-- Witness for C7 (amended): deciding the single pending request approves it
and stamps the human decision metadata. -/
theorem decide_approval_unconditional_witness :
    ∃ pend2, decideApproval [("APR-1", exApproval)] "APR-1" true 0 "ok" = Except.ok pend2 ∧
      approvalStatusOf pend2 "APR-1" = some ApprovalStatus.approved ∧
      pend2.map Prod.fst = ["APR-1"] ∧
      (∀ kv ∈ pend2, kv.1 = "APR-1" → kv.2.decidedBy = some "human" ∧
        kv.2.decidedAt = some 0 ∧ kv.2.reason = some "ok") := by
  obtain ⟨_, pend2, hok, hstat, hkeys, hmeta⟩ :=
    decide_approval_unconditional [("APR-1", exApproval)] "APR-1" true 0 "ok"
      ⟨("APR-1", exApproval), by simp, rfl⟩
  exact ⟨pend2, hok, hstat, by simpa using hkeys, hmeta⟩

theorem calculateSnapshot_fillRate (hist : List KPISnapshot) (ps : List Product)
    (os : List PurchaseOrder) (ss : List Supplier) :
    (calculateSnapshot hist ps os ss).fillRate =
      pyRound 4 ((ps.map (fun p => min p.currentStock p.dailyDemandAvg)).sum /
        max (totalDemandOf ps) 1) := rfl

/-- Counterexample to C8 as stated: the code divides by `max(total_demand, 1)`,
not by the demand with a floor applied only at zero. For one product with
stock 1 and daily demand 1/2, the snapshot's fill rate is 0.5 (denominator
floored to 1 although demand is nonzero) while the claimed formula
Σmin/Σdemand gives 1. -/
theorem fill_rate_denominator_counterexample :
    (calculateSnapshot [] [exProductHalfDemand] [] []).fillRate = 1 / 2 ∧
    specFillRate [exProductHalfDemand] = 1 ∧
    totalDemandOf [exProductHalfDemand] ≠ 0 ∧
    ((1 : ℚ) / 2) ≠ 1 := by
  refine ⟨?_, ?_, ?_, by norm_num⟩
  · norm_num [calculateSnapshot, totalDemandOf, exProductHalfDemand, pyRound, roundHalfEven]
  · norm_num [specFillRate, totalDemandOf, exProductHalfDemand]
  · norm_num [totalDemandOf, exProductHalfDemand]

/-- C8 (amended): the aggregate fill rate is
`round₄(Σ min(stock, demand) / max(Σ demand, 1))` — the denominator is floored
at 1, which takes effect whenever aggregate demand is below 1, not only when
it is 0; whenever the aggregate demand is 0 or at least 1 this agrees with the
spec formula Σmin/Σdemand (denominator 1 at zero demand). The concrete
scenario holds: products (stock 100, demand 20) and (stock 0, demand 10) with
no purchase orders give stockoutCount = 1 and fillRate = 0.6667 (≈ 0.667). -/
theorem fill_rate_formula_and_scenario :
    (∀ (hist : List KPISnapshot) (ps : List Product) (os : List PurchaseOrder)
        (ss : List Supplier),
      totalDemandOf ps = 0 ∨ 1 ≤ totalDemandOf ps →
      (calculateSnapshot hist ps os ss).fillRate = pyRound 4 (specFillRate ps)) ∧
    (calculateSnapshot [] [exProductA, exProductB] [] []).stockoutCount = 1 ∧
    (calculateSnapshot [] [exProductA, exProductB] [] []).fillRate = 6667 / 10000 := by
  refine ⟨?_, ?_, ?_⟩
  · intro hist ps os ss hd
    rw [calculateSnapshot_fillRate]
    unfold specFillRate
    dsimp only
    rcases hd with hd | hd
    · rw [hd]
      norm_num
    · have h0 : totalDemandOf ps ≠ 0 := by linarith
      rw [if_neg h0, max_eq_left hd]
  · norm_num [calculateSnapshot, exProductA, exProductB]
  · norm_num [calculateSnapshot, totalDemandOf, exProductA, exProductB, pyRound,
      roundHalfEven]

/-- Witness for C8 (amended): the scenario product pair has aggregate demand
30 ≥ 1, so the snapshot fill rate equals the rounded spec formula there. -/
theorem fill_rate_formula_and_scenario_witness :
    (calculateSnapshot [] [exProductA, exProductB] [] []).fillRate =
      pyRound 4 (specFillRate [exProductA, exProductB]) :=
  fill_rate_formula_and_scenario.1 [] [exProductA, exProductB] [] []
    (Or.inr (by norm_num [totalDemandOf, exProductA, exProductB]))

/-- C10: the demand-consumption step at the end of an orchestrator cycle sets
each product's stock to `max(0, old − consumed)` with the consumed amount
clamped non-negative, so for every product with non-negative stock the new
stock satisfies `old ≥ new ≥ 0` — stock never increases and never goes below
zero. -/
theorem demand_consumption_clamped :
    (∀ (g : ℚ) (p : Product),
      (consumeOne g p).currentStock = max 0 (p.currentStock - max 0 g) ∧
      0 ≤ max 0 g ∧
      0 ≤ (consumeOne g p).currentStock ∧
      (0 ≤ p.currentStock → (consumeOne g p).currentStock ≤ p.currentStock)) ∧
    (∀ (draws : List ℚ) (products : List Product), products.length ≤ draws.length →
      List.Forall₂ (fun p q =>
        0 ≤ q.currentStock ∧ (0 ≤ p.currentStock → q.currentStock ≤ p.currentStock) ∧
        ∃ g, q = consumeOne g p) products (consumeDemand draws products)) := by
  have hone : ∀ (g : ℚ) (p : Product),
      (consumeOne g p).currentStock = max 0 (p.currentStock - max 0 g) ∧
      0 ≤ max 0 g ∧
      0 ≤ (consumeOne g p).currentStock ∧
      (0 ≤ p.currentStock → (consumeOne g p).currentStock ≤ p.currentStock) := by
    intro g p
    refine ⟨rfl, le_max_left 0 g, le_max_left 0 _, fun h => ?_⟩
    exact max_le h (sub_le_self p.currentStock (le_max_left 0 g))
  refine ⟨hone, ?_⟩
  intro draws products
  induction products generalizing draws with
  | nil => intro _; simp [consumeDemand]
  | cons p rest ih =>
      intro hlen
      cases draws with
      | nil => simp at hlen
      | cons g grest =>
          refine List.Forall₂.cons ?_ (ih grest (by simpa using hlen))
          obtain ⟨_, _, h3, h4⟩ := hone g p
          exact ⟨h3, h4, g, rfl⟩

/-- Witness for C10: one product with stock 100 and one draw of 30 — the new
stock stays within `[0, 100]` and has the clamped-update form. -/
theorem demand_consumption_clamped_witness :
    0 ≤ (consumeOne 30 exProductA).currentStock ∧
    (consumeOne 30 exProductA).currentStock ≤ exProductA.currentStock ∧
    List.Forall₂ (fun p q =>
      0 ≤ q.currentStock ∧ (0 ≤ p.currentStock → q.currentStock ≤ p.currentStock) ∧
      ∃ g, q = consumeOne g p) [exProductA] (consumeDemand [30] [exProductA]) := by
  obtain ⟨_, _, h3, h4⟩ := demand_consumption_clamped.1 30 exProductA
  exact ⟨h3, h4 (by norm_num [exProductA]),
    demand_consumption_clamped.2 [30] [exProductA] (by norm_num)⟩

end ChainCommand
